import Mathlib

/-!
Shallow embedding of the cppsocket core (src/include/expected.hpp,
src/include/cppsocket.hpp, src/src/cppsocket.cpp) and proofs about it.

Conventions of the embedding:
* C++ exception classes are modelled by `ErrKind` (std::runtime_error /
  std::logic_error / std::invalid_argument) plus a message string.
* OS syscall outcomes (poll, read, write, accept, getaddrinfo, ...) are
  inputs of the modelled functions: each function is parametrised by what
  the kernel would answer, and the function's own control flow is the part
  translated from the source.
* Side effects that matter to the claims (which syscalls were issued,
  descriptors opened and closed) are returned explicitly, as booleans or as
  event traces.
-/

namespace Cppsocket

/-- ErrKind distinguishes the concrete C++ exception classes the library
throws or stores: std::runtime_error (system errors), std::logic_error
(timeouts and usage errors) and std::invalid_argument. -/
inductive ErrKind
  | runtimeError
  | logicError
  | invalidArgument
deriving DecidableEq, Repr

/-- Err is one concrete C++ exception: its class and its message. -/
structure Err where
  kind : ErrKind
  msg : String
deriving DecidableEq, Repr

/-- Outcome of a library call: a value, or a carried exception. -/
inductive Outcome (A : Type)
  | ok (a : A)
  | error (e : Err)
deriving DecidableEq, Repr

/-! ## Expected<T> (src/include/expected.hpp)

The C++ type stores a `union { T __value; std::exception_ptr __exception; }`
next to a `bool __erred`.  The union holds exactly one object at a time
(`UnionSlot`); the flag is stored separately, exactly as in the source, so
the model can express "reading the union branch that is not live". -/

/-- UnionSlot is the one object the C++ union currently holds. -/
inductive UnionSlot (T : Type)
  | value (v : T)
  | exception (e : Err)
deriving DecidableEq, Repr

/-- Expected models `Expected<T>`: the union and the `__erred` flag. -/
structure Expected (T : Type) where
  union : UnionSlot T
  erredFlag : Bool
deriving DecidableEq, Repr

/-- Expected<T>::unexpected(e): builds the error branch. The C++ guard
`typeid(e) != typeid(E)` rejects slicing, so the stored exception keeps the
concrete class of `e`; the model stores `e` (kind and message) unchanged. -/
def Expected.unexpected {T : Type} (e : Err) : Expected T :=
  ⟨.exception e, true⟩

/-- Expected(const T&): builds the value branch. -/
def Expected.fromValue {T : Type} (v : T) : Expected T :=
  ⟨.value v, false⟩

/-- erred() returns `__erred`. -/
def Expected.erred {T : Type} (x : Expected T) : Bool :=
  x.erredFlag

/-- get(): if `__erred`, rethrow `__exception`; else return `__value`.
Reading the union member that is not the one last constructed is undefined
behaviour in C++, modelled as `none`. -/
def Expected.get {T : Type} (x : Expected T) : Option (Outcome T) :=
  if x.erredFlag then
    match x.union with
    | .exception e => some (.error e)
    | .value _ => none
  else
    match x.union with
    | .value v => some (.ok v)
    | .exception _ => none

/-- WF: the invariant every constructor of Expected establishes — the flag
agrees with which union member is live. -/
def Expected.WF {T : Type} (x : Expected T) : Prop :=
  (x.erredFlag = true ∧ ∃ e, x.union = .exception e) ∨
  (x.erredFlag = false ∧ ∃ v, x.union = .value v)

/-- Expected<T>::swap(rhs), as written in the source (expected.hpp:88-112).
The two branches with `!__erred` on the left are translated from their
statements.  The two branches with `__erred` on the left do not denote
anything: `rhs.wap(*this)` names a member that does not exist, and
`__exception.swap(rhs.swap)` passes the member function `rhs.swap` where an
`std::exception_ptr&` is required — instantiating the template member is
ill-formed, so these branches (and with them every call of `swap`) have no
semantics; the model returns `none` for them. -/
def Expected.swapImpl {T : Type} (a b : Expected T) : Option (Expected T × Expected T) :=
  match a.erredFlag, b.erredFlag with
  | false, false =>
    match a.union, b.union with
    | .value av, .value bv => some (⟨.value bv, false⟩, ⟨.value av, false⟩)
    | _, _ => none
  | false, true =>
    match a.union, b.union with
    | .value av, .exception be => some (⟨.exception be, true⟩, ⟨.value av, false⟩)
    | _, _ => none
  | true, false => none
  | true, true => none

/-! ## Address resolution (cppsocket.cpp:61-120)

`Snipper` and `resolve` work on `std::string`; the model works on
`List Char` with `std::string::find`, `substr(0, pos)` and
`substr(pos + len, …)` translated literally. -/

/-- leadsWith d l is true when `d` occurs at the start of `l` (the prefix
test `std::string::find` performs at each position). -/
def leadsWith : List Char → List Char → Bool
  | [], _ => true
  | _ :: _, [] => false
  | d :: ds, c :: cs => if d = c then leadsWith ds cs else false

/-- findSub l d is `l.find(d)`: the leftmost index where `d` occurs, `none`
for `npos`. -/
def findSub : List Char → List Char → Option Nat
  | [], d => if d = [] then some 0 else none
  | c :: rest, d =>
    if leadsWith d (c :: rest) then some 0 else (findSub rest d).map (· + 1)

/-- Snipper keeps the part of the string not yet snipped (`__str`).  The
`__snipped` vector only keeps the returned pieces alive and is not
modelled. -/
structure Snipper where
  str : List Char

/-- Snipper::operator()(delimiter): `find` the delimiter; on `npos` return
NULL (`none`) leaving `__str` alone; otherwise return the part before the
delimiter and drop it together with the delimiter from `__str`. -/
def Snipper.snip (sn : Snipper) (delimiter : List Char) : Option (List Char) × Snipper :=
  match findSub sn.str delimiter with
  | none => (none, sn)
  | some pos => (some (sn.str.take pos), ⟨sn.str.drop (pos + delimiter.length)⟩)

/-- Snipper::remaining_or(c): `__str != "" ? __str.c_str() : c`. -/
def Snipper.remaining_or (sn : Snipper) (c : List Char) : List Char :=
  if sn.str = [] then c else sn.str

/-- SockType is the `ai_socktype` hint resolve picks from the protocol. -/
inductive SockType
  | stream
  | dgram
deriving DecidableEq, Repr

/-- ResolveStep is what `resolve` (cppsocket.cpp:97-120) does up to the
point where it would call `getaddrinfo`:
* `nullProtocolDeref` — the address has no "://", the first snip returned
  NULL, and `std::string(protocol)` at line 106 dereferences a null
  pointer (undefined behaviour, no error object is ever built);
* `unsupportedProtocol` — the protocol token is neither "tcp" nor "udp";
  `resolve` returns the "Unsupported protocol" error before any syscall;
* `query hostname service socktype` — the pair handed to `getaddrinfo`
  (`hostname = none` models passing the NULL the second snip returned). -/
inductive ResolveStep
  | nullProtocolDeref
  | unsupportedProtocol (protocol : List Char)
  | query (hostname : Option (List Char)) (service : List Char) (socktype : SockType)
deriving DecidableEq, Repr

/-- resolveParse is the parsing phase of `resolve`: three snips, then the
protocol comparison.  Translated line by line from cppsocket.cpp:99-113. -/
def resolveParse (address : List Char) : ResolveStep :=
  let sn0 : Snipper := ⟨address⟩
  let r1 := sn0.snip "://".toList
  let r2 := r1.2.snip ":".toList
  let port := r2.2.remaining_or "80".toList
  match r1.1 with
  | none => .nullProtocolDeref
  | some p =>
    if p = "tcp".toList then .query r2.1 port .stream
    else if p = "udp".toList then .query r2.1 port .dgram
    else .unsupportedProtocol p

/-! ## netaddr (cppsocket.cpp:24-45)

The source computes the IP through `(sockaddr_in*)sa` (correct) but the
port through `(sockaddr_in*)&sa` — a cast of the address of the *pointer
parameter itself* — so `sin_port` is read from the bytes of the pointer
variable, not from the sockaddr.  The model takes that stray value as the
extra argument `portReadAtPtr`. -/

/-- Family is the `sa_family` of the sockaddr. -/
inductive Family
  | inet
  | inet6
  | other
deriving DecidableEq, Repr

/-- SockAddrIn is the sockaddr the kernel filled in: its family, the real
port stored in `sin_port`/`sin6_port` (host byte order), and the text
`inet_ntop` renders for its address bytes. -/
structure SockAddrIn where
  family : Family
  sin_port : Nat
  ip : String
deriving DecidableEq, Repr

/-- netaddr(const sockaddr* sa): unsupported family is a runtime_error;
otherwise the result is "ip:port" where ip comes from `sa` but port is the
value read through `(sockaddr_in*)&sa` (`portReadAtPtr`), per the source's
cast.  (`inet_ntop` failure, another runtime_error path, is not reached in
this model because `ip` is taken as already rendered.) -/
def netaddr (sa : SockAddrIn) (portReadAtPtr : Nat) : Outcome String :=
  match sa.family with
  | .other => .error ⟨.runtimeError, "netaddr: unsupported family"⟩
  | _ => .ok (sa.ip ++ ":" ++ toString portReadAtPtr)

/-- TCPConnectionImpl dialing constructor, the `__remote_addr` member
(cppsocket.cpp:342): "tcp://" + netaddr(resolved->ai_addr).get(). -/
def TCPConnectionDialRemoteAddr (resolvedAddr : SockAddrIn) (portReadAtPtr : Nat) :
    Outcome String :=
  match netaddr resolvedAddr portReadAtPtr with
  | .error e => .error e
  | .ok s => .ok ("tcp://" ++ s)

/-- TCPListenerImpl::accept, the accepted connection's local address
(cppsocket.cpp:558): netaddr(__addr->ai_addr), prefixed "tcp://" by the
TCPConnectionImpl(int, string, string) constructor. -/
def TCPListenerAcceptLocalAddr (boundAddr : SockAddrIn) (portReadAtPtr : Nat) :
    Outcome String :=
  match netaddr boundAddr portReadAtPtr with
  | .error e => .error e
  | .ok s => .ok ("tcp://" ++ s)

/-! ## The poll-then-syscall operations

Every read/write/accept first calls `poll` on the one descriptor.  The
source checks `result == -1 || revents & POLLERR` (system error) and -- in
all operations except `TCPListener::accept` -- `result == 0` (deadline
elapsed, a std::logic_error).  `PollOutcome` is what poll answered;
`ioRet` is the ssize_t / fd the subsequent syscall would return.  Each
model returns the call's result together with a Bool: whether the
post-poll I/O syscall was issued. -/

/-- PollOutcome: what poll answered for the one polled descriptor. -/
inductive PollOutcome
  | err
  | timeout
  | ready
deriving DecidableEq, Repr

/-- TCPConnection::read(b, t) (cppsocket.cpp:423-448): poll with the
deadline, then a single sys::read. -/
def TCPConnectionRead (p : PollOutcome) (ioRet : Int) : Outcome Int × Bool :=
  match p with
  | .err => (.error ⟨.runtimeError, "TCPConnection::read: failed to poll the socket"⟩, false)
  | .timeout => (.error ⟨.logicError, "TCPConnection::read: timeout whilst polling the socket"⟩, false)
  | .ready =>
    if ioRet < 0 then (.error ⟨.runtimeError, "TCPConnection::read: unable to read"⟩, true)
    else (.ok ioRet, true)

/-- TCPConnection::write(b, t) (cppsocket.cpp:455-480): poll for POLLOUT,
then a single sys::write. -/
def TCPConnectionWrite (p : PollOutcome) (ioRet : Int) : Outcome Int × Bool :=
  match p with
  | .err => (.error ⟨.runtimeError, "TCPConnection::write: failed to poll the socket"⟩, false)
  | .timeout => (.error ⟨.logicError, "TCPConnection::write: timeout whilst polling the socket"⟩, false)
  | .ready =>
    if ioRet < 0 then (.error ⟨.runtimeError, "TCPConnection::write: unable to write"⟩, true)
    else (.ok ioRet, true)

/-- TCPListener::accept(t) (cppsocket.cpp:535-570): poll checks only
`result == -1 || revents & POLLERR`; there is no `result == 0` branch, so
on a poll timeout the code falls through and issues sys::accept anyway. -/
def TCPListenerAccept (p : PollOutcome) (acceptRet : Int) : Outcome Int × Bool :=
  match p with
  | .err => (.error ⟨.runtimeError, "TCPListener::accept: failed to poll the bound-socket"⟩, false)
  | _ =>
    if acceptRet = -1 then
      (.error ⟨.runtimeError, "TCPListener::accept: failed to accept a new connection"⟩, true)
    else (.ok acceptRet, true)

/-- UDPConnection::unknown_addr, the sentinel for a peer that is not known
(cppsocket.hpp:156). -/
def unknown_addr : String := "?"

/-- UDPConnection::read(b, remote, t) (cppsocket.cpp:203-224): poll, one
recvfrom, then decode the sender with netaddr; on decode failure the
sentinel is written into `remote`.  `senderAddr` is what netaddr yields for
the captured sockaddr.  Returns (result, value assigned to `remote` if
any, whether recvfrom was issued). -/
def UDPConnectionReadFrom (p : PollOutcome) (ioRet : Int) (senderAddr : Outcome String) :
    Outcome Int × Option String × Bool :=
  match p with
  | .err => (.error ⟨.runtimeError, "UDPConnection::read: failed to poll the socket"⟩, none, false)
  | .timeout => (.error ⟨.logicError, "UDPConnection::read: timeout whilst polling the socket"⟩, none, false)
  | .ready =>
    if ioRet < 0 then (.error ⟨.runtimeError, "UDPConnection::read: unable to read"⟩, none, true)
    else
      match senderAddr with
      | .error _ => (.ok ioRet, some unknown_addr, true)
      | .ok a => (.ok ioRet, some ("udp://" ++ a), true)

/-- Resolved abstracts a `shared_ptr<addrinfo>` handle. -/
abbrev Resolved := Nat

/-- Cache is the `__remotes` map, keyed by the literal remote string. -/
abbrev Cache := List (String × Resolved)

/-- unordered_map::find on the cache. -/
def lookupCache : Cache → String → Option Resolved
  | [], _ => none
  | (k, v) :: rest, key => if key = k then some v else lookupCache rest key

/-- `__remotes[remote] = resolved` (insert). -/
def insertCache (c : Cache) (k : String) (v : Resolved) : Cache :=
  (k, v) :: c

/-- ResolveOut is what one `__resolve` call produced: the result, the cache
afterwards, and how many times the full resolver (`resolve`, i.e. parsing
plus getaddrinfo) ran. -/
structure ResolveOut where
  result : Outcome Resolved
  cache : Cache
  resolveCalls : Nat
deriving Repr

/-- UDPConnectionImpl::__resolve(remote) (cppsocket.cpp:290-306): under the
mutex, look the literal string up in `__remotes`; on a hit return the
cached handle; on a miss run `resolve` (modelled by `oracle`), propagate
its failure without caching, and on success store the handle in the map. -/
def UDPResolveRemote (oracle : String → Option Resolved) (c : Cache) (remote : String) :
    ResolveOut :=
  match lookupCache c remote with
  | some found => ⟨.ok found, c, 0⟩
  | none =>
    match oracle remote with
    | none => ⟨.error ⟨.runtimeError, "resolve: failed"⟩, c, 1⟩
    | some r => ⟨.ok r, insertCache c remote r, 1⟩

/-- UDPConnection::write(b, remote, t) (cppsocket.cpp:246-268): first
`__resolve(remote)` — on failure an std::invalid_argument, before any
polling — then poll for POLLOUT and one sendto.  Returns (result, cache
afterwards, whether sendto was issued). -/
def UDPConnectionWriteTo (oracle : String → Option Resolved) (c : Cache) (remote : String)
    (p : PollOutcome) (ioRet : Int) : Outcome Int × Cache × Bool :=
  let r := UDPResolveRemote oracle c remote
  match r.result with
  | .error _ =>
    (.error ⟨.invalidArgument,
      "UDPConnection::write: unable to resolve the given remote \"" ++ remote ++ "\""⟩,
     r.cache, false)
  | .ok _ =>
    match p with
    | .err => (.error ⟨.runtimeError, "UDPConnection::writes: failed to poll the socket"⟩, r.cache, false)
    | .timeout => (.error ⟨.logicError, "UDPConnection::write: timeout whilst polling the socket"⟩, r.cache, false)
    | .ready =>
      if ioRet < 0 then (.error ⟨.runtimeError, "UDPConnection::write: unable to write"⟩, r.cache, true)
      else (.ok ioRet, r.cache, true)

/-- UDPConnectionState: the address strings a UDPConnectionImpl fixed at
construction.  A dialing connection records the literal dialed string as
`remote_addr`; a listening one records the sentinel `unknown_addr`. -/
structure UDPConnectionState where
  local_addr : String
  remote_addr : String
deriving DecidableEq, Repr

/-- UDPConnection::read(b, t) (cppsocket.cpp:231-239): when
`__remote_addr != unknown_addr` — that is, on a DIALING connection — it
returns the std::logic_error "reading from a sending UDP connection
without addressee"; otherwise (listening) it delegates to
read(b, whom, t), discarding the captured sender. -/
def UDPConnectionReadUnaddressed (conn : UDPConnectionState) (p : PollOutcome)
    (ioRet : Int) (senderAddr : Outcome String) : Outcome Int × Bool :=
  if conn.remote_addr ≠ unknown_addr then
    (.error ⟨.logicError, "UDPConnection::read: reading from a sending UDP connection without addressee"⟩,
     false)
  else
    let r := UDPConnectionReadFrom p ioRet senderAddr
    (r.1, r.2.2)

/-- UDPConnection::write(b, t) (cppsocket.cpp:275-282): when
`__remote_addr == unknown_addr` (listening) it returns the
std::logic_error "writing to receiving UDP connection without addressee";
otherwise it delegates to write(b, __remote_addr, t). -/
def UDPConnectionWriteUnaddressed (conn : UDPConnectionState)
    (oracle : String → Option Resolved) (c : Cache) (p : PollOutcome) (ioRet : Int) :
    Outcome Int × Cache × Bool :=
  if conn.remote_addr = unknown_addr then
    (.error ⟨.logicError, "UDPConnection::write: writing to receiving UDP connection without addressee"⟩,
     c, false)
  else
    UDPConnectionWriteTo oracle c conn.remote_addr p ioRet

/-! ## Construction and destruction traces (resource claims)

Each constructor is modelled as the trace of descriptor-relevant events it
performs, parametrised by which syscalls succeed.  `threw` is a C++ throw
escaping the constructor; `constructed` is normal completion. -/

/-- SysEv: a descriptor-relevant event of a constructor or destructor. -/
inductive SysEv
  | socketCreated
  | closed
  | threw
  | constructed
deriving DecidableEq, Repr

/-- UDPConnectionImpl dialing constructor (cppsocket.cpp:126-141): socket,
connect; on connect failure it throws WITHOUT closing the socket. -/
def UDPDialCtorTrace (socketOk connectOk : Bool) : List SysEv :=
  if !socketOk then [.threw]
  else if !connectOk then [.socketCreated, .threw]
  else [.socketCreated, .constructed]

/-- UDPConnectionImpl listening constructor (cppsocket.cpp:144-159):
socket, bind; on bind failure it throws WITHOUT closing the socket. -/
def UDPListenCtorTrace (socketOk bindOk : Bool) : List SysEv :=
  if !socketOk then [.threw]
  else if !bindOk then [.socketCreated, .threw]
  else [.socketCreated, .constructed]

/-- TCPConnectionImpl dialing constructor (cppsocket.cpp:341-358): socket,
connect; connect failure closes the socket before throwing. -/
def TCPDialCtorTrace (socketOk connectOk : Bool) : List SysEv :=
  if !socketOk then [.threw]
  else if !connectOk then [.socketCreated, .closed, .threw]
  else [.socketCreated, .constructed]

/-- TCPListenerImpl constructor (cppsocket.cpp:496-528): socket,
setsockopt(SO_REUSEADDR), bind, listen(512); every failure after socket
creation closes the socket before throwing. -/
def TCPListenerCtorTrace (socketOk sockoptOk bindOk listenOk : Bool) : List SysEv :=
  if !socketOk then [.threw]
  else if !sockoptOk then [.socketCreated, .closed, .threw]
  else if !bindOk then [.socketCreated, .closed, .threw]
  else if !listenOk then [.socketCreated, .closed, .threw]
  else [.socketCreated, .constructed]

/-- leaksDescriptor: the construction failed after the descriptor was
created and never closed it. -/
def leaksDescriptor (tr : List SysEv) : Bool :=
  tr.contains .socketCreated && tr.contains .threw && !tr.contains .closed

/-- ~TCPConnectionImpl (cppsocket.cpp:366-369): one sys::close. -/
def TCPConnectionDtorTrace : List SysEv := [.closed]

/-- ~TCPListenerImpl (cppsocket.cpp:530-533): one sys::close. -/
def TCPListenerDtorTrace : List SysEv := [.closed]

/-- UDPConnectionImpl declares no destructor (cppsocket.cpp:122-316); the
implicitly-defined destructor of a struct holding an `int __socket` issues
no close. -/
def UDPConnectionDtorTrace : List SysEv := []


theorem findSub_head_notMem {d : Char} (ds : List Char) {l : List Char} (h : d ∉ l) :
    findSub l (d :: ds) = none := by
  induction l with
  | nil => simp [findSub]
  | cons c cs ih =>
    have hdc : d ≠ c := fun he => h (List.mem_cons.mpr (Or.inl he))
    have hcs : d ∉ cs := fun hm => h (List.mem_cons.mpr (Or.inr hm))
    simp [findSub, leadsWith, hdc, ih hcs]

theorem findSub_append_colon {l : List Char} (h : (':' : Char) ∉ l) :
    findSub (l ++ [':']) [':'] = some l.length := by
  induction l with
  | nil => simp [findSub, leadsWith]
  | cons c cs ih =>
    have hdc : (':' : Char) ≠ c := fun he => h (List.mem_cons.mpr (Or.inl he))
    have hcs : (':' : Char) ∉ cs := fun hm => h (List.mem_cons.mpr (Or.inr hm))
    simp [findSub, leadsWith, hdc, ih hcs]

theorem findSub_tcpSep (rest : List Char) :
    findSub ('t' :: 'c' :: 'p' :: ':' :: '/' :: '/' :: rest) [':', '/', '/'] = some 3 := by
  have h1 : (':' : Char) ≠ 't' := by decide
  have h2 : (':' : Char) ≠ 'c' := by decide
  have h3 : (':' : Char) ≠ 'p' := by decide
  simp [findSub, leadsWith, h1, h2, h3]

theorem resolveParse_noColonHost (host : List Char) (hne : host ≠ []) (hcol : (':' : Char) ∉ host) :
    resolveParse ("tcp://".toList ++ host) = .query none host .stream := by
  have hsep : "tcp://".toList ++ host = 't' :: 'c' :: 'p' :: ':' :: '/' :: '/' :: host := rfl
  rw [hsep]
  simp [resolveParse, Snipper.snip, Snipper.remaining_or, findSub_tcpSep,
        findSub_head_notMem [] hcol, hne]

theorem resolveParse_hostColon (host : List Char) (hcol : (':' : Char) ∉ host) :
    resolveParse ("tcp://".toList ++ host ++ [':']) = .query (some host) "80".toList .stream := by
  have hsep : "tcp://".toList ++ host ++ [':'] = 't' :: 'c' :: 'p' :: ':' :: '/' :: '/' :: (host ++ [':']) := by simp
  rw [hsep]
  have hdrop : (host ++ [':']).drop (host.length + 1) = [] := by
    have hlen : (host ++ [':']).length = host.length + 1 := by simp
    rw [← hlen, List.drop_length]
  have htake : (host ++ [':']).take host.length = host := by
    simp
  simp [resolveParse, Snipper.snip, Snipper.remaining_or, findSub_tcpSep,
        findSub_append_colon hcol, hdrop, htake]


/-- C1: reads and writes with a deadline return the std::logic_error
timeout kind on poll timeout (distinct from runtime_error) and issue no
subsequent I/O syscall, but TCPListener::accept has no poll-timeout branch:
on a timed-out poll it still issues sys::accept and can return a
connection, contradicting its own header documentation. -/
theorem C1_accept_timeout_not_handled :
    TCPConnectionRead .timeout 0
      = (.error ⟨.logicError, "TCPConnection::read: timeout whilst polling the socket"⟩, false) ∧
    TCPConnectionWrite .timeout 0
      = (.error ⟨.logicError, "TCPConnection::write: timeout whilst polling the socket"⟩, false) ∧
    UDPConnectionReadFrom .timeout 0 (.ok "")
      = (.error ⟨.logicError, "UDPConnection::read: timeout whilst polling the socket"⟩, none, false) ∧
    (UDPConnectionWriteTo (fun _ => some 0) [] "udp://h:1" .timeout 0).1
      = .error ⟨.logicError, "UDPConnection::write: timeout whilst polling the socket"⟩ ∧
    (UDPConnectionWriteTo (fun _ => some 0) [] "udp://h:1" .timeout 0).2.2 = false ∧
    TCPListenerAccept .timeout 7 = (.ok 7, true) := by
  decide

/-- C2: the code rejects the unaddressed UDP read exactly on a DIALING
connection (remote_addr ≠ "?") with a std::logic_error and delegates on a
listening one — the reverse of the claim and of the repository's own test;
the unaddressed write behaves as claimed (rejected on listening,
delegating to the recorded remote on dialing). -/
theorem C2_udp_unaddressed_modes :
    UDPConnectionReadUnaddressed ⟨"udp://127.0.0.1:58123", "udp://127.0.0.1:9998"⟩ .ready 6 (.ok "127.0.0.1:9998")
      = (.error ⟨.logicError, "UDPConnection::read: reading from a sending UDP connection without addressee"⟩, false) ∧
    UDPConnectionReadUnaddressed ⟨"udp://127.0.0.1:9998", "?"⟩ .ready 6 (.ok "127.0.0.1:58123")
      = (.ok 6, true) ∧
    (UDPConnectionWriteUnaddressed ⟨"udp://127.0.0.1:9998", "?"⟩ (fun _ => some 0) [] .ready 6).1
      = .error ⟨.logicError, "UDPConnection::write: writing to receiving UDP connection without addressee"⟩ ∧
    (UDPConnectionWriteUnaddressed ⟨"udp://127.0.0.1:58123", "udp://127.0.0.1:9998"⟩ (fun _ => some 0) [] .ready 6).1
      = .ok 6 := by
  decide

/-- C3 counterexample: for "tcp://example.com" (no colon after the host)
the resolver does NOT treat the port as "80" with the host as hostname; it
hands hostname NULL and the host text as the service to getaddrinfo. -/
theorem C3_counterexample :
    resolveParse "tcp://example.com".toList = .query none "example.com".toList .stream ∧
    resolveParse "tcp://example.com".toList ≠ .query (some "example.com".toList) "80".toList .stream := by
  decide

/-- C3 (amended): for every host without a colon, "tcp://host" resolves
with hostname NULL and the host text as the service string; the "80"
default applies only when the text after the host's colon is empty, as in
"tcp://host:". -/
theorem C3_missing_port_default (host : List Char) (hne : host ≠ []) (hcol : (':' : Char) ∉ host) :
    resolveParse ("tcp://".toList ++ host) = .query none host .stream ∧
    resolveParse ("tcp://".toList ++ host ++ [':']) = .query (some host) "80".toList .stream :=
  ⟨resolveParse_noColonHost host hne hcol, resolveParse_hostColon host hcol⟩

/-- C3 witness: the amended statement at host = "example.com". -/
theorem C3_missing_port_default_witness :
    resolveParse ("tcp://".toList ++ "example.com".toList) = .query none "example.com".toList .stream ∧
    resolveParse ("tcp://".toList ++ "example.com".toList ++ [':'])
      = .query (some "example.com".toList) "80".toList .stream :=
  C3_missing_port_default "example.com".toList (by decide) (by decide)

/-- C4: netaddr reads the port through (sockaddr_in*)&sa — the bytes of
the pointer variable — so the reported port is unrelated to the sockaddr's
sin_port: the same sockaddr examined at two pointer values yields two
different strings, and netaddr's output is independent of the real port;
the dialer's remote_addr and the accepted side's local_addr therefore need
not agree even for the same resolved address. -/
theorem C4_netaddr_port_from_pointer :
    TCPConnectionDialRemoteAddr ⟨.inet, 9876, "127.0.0.1"⟩ 17 = .ok "tcp://127.0.0.1:17" ∧
    TCPListenerAcceptLocalAddr ⟨.inet, 9876, "127.0.0.1"⟩ 23 = .ok "tcp://127.0.0.1:23" ∧
    TCPConnectionDialRemoteAddr ⟨.inet, 9876, "127.0.0.1"⟩ 17
      ≠ TCPListenerAcceptLocalAddr ⟨.inet, 9876, "127.0.0.1"⟩ 23 ∧
    netaddr ⟨.inet, 9876, "127.0.0.1"⟩ 17 = netaddr ⟨.inet, 1234, "127.0.0.1"⟩ 17 := by
  decide

/-- C5: both UDP constructors throw without closing the descriptor created
by the preceding socket() call (a leak), while the TCP connection and TCP
listener constructors close it on every post-creation failure. -/
theorem C5_udp_ctor_leaks :
    leaksDescriptor (UDPDialCtorTrace true false) = true ∧
    leaksDescriptor (UDPListenCtorTrace true false) = true ∧
    (∀ s c, leaksDescriptor (TCPDialCtorTrace s c) = false) ∧
    (∀ s o b l, leaksDescriptor (TCPListenerCtorTrace s o b l) = false) := by
  decide

/-- C6: destruction closes the descriptor exactly once for TCP connections
and TCP listeners, but UDPConnectionImpl declares no destructor, so a
destroyed UDP connection closes its descriptor zero times. -/
theorem C6_udp_never_closed :
    TCPConnectionDtorTrace.count .closed = 1 ∧
    TCPListenerDtorTrace.count .closed = 1 ∧
    UDPConnectionDtorTrace.count .closed = 0 := by
  decide

/-- C7: an unsupported protocol token is indeed a resolution error with no
syscall, but an address lacking "://" makes the first snip return NULL and
std::string(protocol) dereference it — undefined behaviour, not a
resolution error. -/
theorem C7_unparsable_is_null_deref :
    resolveParse "localhost:8080".toList = .nullProtocolDeref ∧
    resolveParse "ftp://host:21".toList = .unsupportedProtocol "ftp".toList := by
  decide

/-- C8: for every well-formed Expected, erred() reports exactly which
union branch is live, get() returns the stored value when erred() is false
and the carried error (kind intact) when erred() is true, and never reads
the dead union branch; both public constructors establish well-formedness. -/
theorem C8_expected_get (T : Type) (x : Expected T) (h : x.WF) (v : T) (e : Err) :
    (x.erred = true ↔ ∃ err, x.union = .exception err) ∧
    (x.erred = false → ∃ w, x.union = .value w ∧ x.get = some (.ok w)) ∧
    (x.erred = true → ∃ err, x.union = .exception err ∧ x.get = some (.error err)) ∧
    x.get ≠ none ∧
    (Expected.fromValue (T := T) v).WF ∧
    (Expected.fromValue (T := T) v).get = some (.ok v) ∧
    (Expected.unexpected (T := T) e).WF ∧
    (Expected.unexpected (T := T) e).get = some (.error e) := by
  obtain ⟨hf, err, herr⟩ | ⟨hf, w, hw⟩ := h
  · refine ⟨?_, ?_, ?_, ?_, ?_, ?_, ?_, ?_⟩
    · simp [Expected.erred, hf, herr]
    · intro hfalse; rw [Expected.erred, hf] at hfalse; cases hfalse
    · intro _; exact ⟨err, herr, by simp [Expected.get, hf, herr]⟩
    · simp [Expected.get, hf, herr]
    · exact Or.inr ⟨rfl, v, rfl⟩
    · simp [Expected.get, Expected.fromValue]
    · exact Or.inl ⟨rfl, e, rfl⟩
    · simp [Expected.get, Expected.unexpected]
  · refine ⟨?_, ?_, ?_, ?_, ?_, ?_, ?_, ?_⟩
    · constructor
      · intro htrue; rw [Expected.erred, hf] at htrue; cases htrue
      · rintro ⟨err, herr⟩; rw [hw] at herr; cases herr
    · intro _; exact ⟨w, hw, by simp [Expected.get, hf, hw]⟩
    · intro htrue; rw [Expected.erred, hf] at htrue; cases htrue
    · simp [Expected.get, hf, hw]
    · exact Or.inr ⟨rfl, v, rfl⟩
    · simp [Expected.get, Expected.fromValue]
    · exact Or.inl ⟨rfl, e, rfl⟩
    · simp [Expected.get, Expected.unexpected]

/-- C8 witness: the theorem applied to a concrete erred Expected Nat. -/
theorem C8_expected_get_witness :
    (Expected.unexpected (T := Nat) ⟨.runtimeError, "m"⟩).get
      = some (.error ⟨.runtimeError, "m"⟩) :=
  (C8_expected_get Nat (Expected.unexpected ⟨.runtimeError, "m"⟩)
    (Or.inl ⟨rfl, ⟨.runtimeError, "m"⟩, rfl⟩) 0 ⟨.runtimeError, "m"⟩).2.2.2.2.2.2.2

/-- C9: __resolve consults the mutex-guarded peer cache first — a hit runs
no full resolution and leaves the cache unchanged; a miss runs resolution
exactly once, caching the handle on success and caching nothing on
failure; no entry is ever evicted; and the addressed write's cache effect
is exactly __resolve's. -/
theorem C9_peer_cache (oracle : String → Option Resolved) (c : Cache) (remote : String) :
    (∀ r, lookupCache c remote = some r → UDPResolveRemote oracle c remote = ⟨.ok r, c, 0⟩) ∧
    (lookupCache c remote = none → oracle remote = none →
      (UDPResolveRemote oracle c remote).cache = c ∧
      (UDPResolveRemote oracle c remote).resolveCalls = 1 ∧
      ∃ e, (UDPResolveRemote oracle c remote).result = .error e) ∧
    (lookupCache c remote = none → ∀ r, oracle remote = some r →
      UDPResolveRemote oracle c remote = ⟨.ok r, insertCache c remote r, 1⟩) ∧
    (∀ k v, lookupCache c k = some v →
      lookupCache (UDPResolveRemote oracle c remote).cache k = some v) ∧
    (∀ p ioRet, (UDPConnectionWriteTo oracle c remote p ioRet).2.1
      = (UDPResolveRemote oracle c remote).cache) := by
  refine ⟨?_, ?_, ?_, ?_, ?_⟩
  · intro r hr; simp [UDPResolveRemote, hr]
  · intro hmiss hfail; simp [UDPResolveRemote, hmiss, hfail]
  · intro hmiss r hr; simp [UDPResolveRemote, hmiss, hr]
  · intro k v hkv
    cases hk : lookupCache c remote with
    | some r => simp [UDPResolveRemote, hk, hkv]
    | none =>
      cases horacle : oracle remote with
      | none => simp [UDPResolveRemote, hk, horacle, hkv]
      | some r =>
        have hne : k ≠ remote := by
          intro he; rw [he] at hkv; rw [hkv] at hk; cases hk
        simp [UDPResolveRemote, hk, horacle, insertCache, lookupCache, hne, hkv]
  · intro p ioRet
    unfold UDPConnectionWriteTo
    cases hres : (UDPResolveRemote oracle c remote).result with
    | error e => simp [hres]
    | ok r =>
      cases p <;> simp [hres]
      split <;> rfl

/-- C9 witness: a cache hit returns the cached handle without resolving,
and a miss resolves once and inserts. -/
theorem C9_peer_cache_witness :
    UDPResolveRemote (fun _ => some 5) [("udp://a", 3)] "udp://a" = ⟨.ok 3, [("udp://a", 3)], 0⟩ ∧
    UDPResolveRemote (fun _ => some 5) [] "udp://b" = ⟨.ok 5, [("udp://b", 5)], 1⟩ := by
  refine ⟨(C9_peer_cache (fun _ => some 5) [("udp://a", 3)] "udp://a").1 3 (by decide), ?_⟩
  have h := (C9_peer_cache (fun _ => some 5) [] "udp://b").2.2.1 rfl 5 rfl
  simpa [insertCache] using h

/-- C10: Expected::swap as written has no defined semantics when the left
side holds an error — rhs.wap(*this) names a nonexistent member and
__exception.swap(rhs.swap) passes a member function where an
exception_ptr is required — while the two value-on-the-left branches do
exchange the contents. -/
theorem C10_swap_ill_formed :
    Expected.swapImpl (Expected.unexpected (T := Nat) ⟨.runtimeError, "boom"⟩) (Expected.fromValue 5) = none ∧
    Expected.swapImpl (Expected.unexpected (T := Nat) ⟨.runtimeError, "a"⟩) (Expected.unexpected ⟨.logicError, "b"⟩) = none ∧
    Expected.swapImpl (Expected.fromValue (T := Nat) 5) (Expected.unexpected ⟨.runtimeError, "boom"⟩)
      = some (Expected.unexpected ⟨.runtimeError, "boom"⟩, Expected.fromValue 5) ∧
    Expected.swapImpl (Expected.fromValue (T := Nat) 1) (Expected.fromValue 2)
      = some (Expected.fromValue 2, Expected.fromValue 1) := by
  decide

end Cppsocket
